import Mathlib

/-!
Verification of the Zendesk MCP tool gateway.

The definitions below are a shallow embedding of `src/index.ts` and
`src/server.ts`: the `ZendeskClient` data-assembly methods (comment
pagination, ticket search with timeout folding, help-center article
enrichment, URL rewriting), the `CallToolRequestSchema` dispatcher of both
entry points, and the `/mcp` session resolution of the HTTP server.  Remote
HTTP calls are modelled as explicit function parameters returning
`Except`; the JavaScript string operations the code relies on
(`String.prototype.replace` with a string pattern, `replace` with a global
regex, `includes`, and `||` coalescing of falsy values) are modelled
character-list by character-list.
-/

/-- First-occurrence substring replacement on character lists, the semantics
of JavaScript `s.replace(pat, rep)` with a plain-string pattern: only the
leftmost occurrence of `pat` is replaced.  An empty pattern matches at the
start of the string, as in JavaScript. -/
def replaceFirstL (pat rep : List Char) (l : List Char) : List Char :=
  match l with
  | [] => if pat.isEmpty then rep else []
  | c :: cs =>
    if pat.isPrefixOf (c :: cs) then rep ++ List.drop pat.length (c :: cs)
    else c :: replaceFirstL pat rep cs

/-- Global substring replacement on character lists, the semantics of
JavaScript `s.replace(regex-with-g-flag, rep)` for a regex that matches a
fixed non-empty literal string: every non-overlapping occurrence, scanning
left to right, is replaced. -/
def replaceAllL (pat rep : List Char) (l : List Char) : List Char :=
  match l with
  | [] => []
  | c :: cs =>
    if pat.isPrefixOf (c :: cs) ∧ pat ≠ [] then
      rep ++ replaceAllL pat rep (List.drop (pat.length - 1) cs)
    else
      c :: replaceAllL pat rep cs
termination_by l.length
decreasing_by
  · simp only [List.length_drop, List.length_cons]
    omega
  · simp only [List.length_cons]
    omega

/-- Substring containment on character lists, the semantics of JavaScript
`s.includes(pat)`. -/
def containsSubL (pat : List Char) : List Char → Bool
  | [] => pat.isEmpty
  | c :: cs => pat.isPrefixOf (c :: cs) || containsSubL pat cs

/-- JavaScript `s.replace(pat, rep)` with a plain-string pattern. -/
def jsReplaceFirst (s pat rep : String) : String :=
  String.mk (replaceFirstL pat.data rep.data s.data)

/-- JavaScript `s.replace(/pat/g, rep)` for a literal pattern. -/
def jsReplaceAll (s pat rep : String) : String :=
  String.mk (replaceAllL pat.data rep.data s.data)

/-- JavaScript `s.includes(pat)`. -/
def jsIncludes (s pat : String) : Bool :=
  containsSubL pat.data s.data

/-- JavaScript `o || dflt` where `o` is a possibly-absent string: absent and
the empty string are falsy. -/
def jsOrStr (o : Option String) (dflt : String) : String :=
  match o with
  | none => dflt
  | some s => if s = "" then dflt else s

/-- JavaScript `o || dflt` where `o` is a possibly-absent number: absent and
zero are falsy. -/
def jsOrNat (o : Option Nat) (dflt : Nat) : Nat :=
  match o with
  | none => dflt
  | some n => if n = 0 then dflt else n

/-- JavaScript `o || null` where `o` is a possibly-absent string. -/
def jsStrOrNull (o : Option String) : Option String :=
  match o with
  | none => none
  | some s => if s = "" then none else some s

/-!
## Pagination (ZendeskClient.getTicketComments / ZendeskClient.getTicket)

The `while (nextPageUrl)` loops of `index.ts` are embedded as a
fuel-indexed recursion.  The remote collaborator is a function from the
requested path to either a page (`comments` array plus `next_page`
continuation field) or a request failure; `none` as the overall result
means the fuel ran out before the loop terminated (the JavaScript loop has
no iteration cap and would still be running).
-/

/-- One page of the comments endpoint: `response.data.comments` and
`response.data.next_page` (absent or `null` modelled as `none`). -/
structure PageResponse (α : Type) where
  comments : List α
  next_page : Option String
deriving DecidableEq

/-- The continuation computation at the bottom of the loop body:
`nextPageUrl = response.data.next_page; if (nextPageUrl) { nextPageUrl =
nextPageUrl.replace(baseURL, ''); }` followed by the `while (nextPageUrl)`
truthiness test.  Returns the path the next iteration will request, or
`none` when the loop exits (no continuation, an empty-string continuation,
or a continuation that becomes empty after the base-URL strip). -/
def nextUrlOf (baseURL : String) (p : PageResponse α) : Option String :=
  match p.next_page with
  | none => none
  | some np =>
    if np = "" then none
    else
      let np2 := jsReplaceFirst np baseURL ""
      if np2 = "" then none else some np2

/-- The pagination loop shared verbatim by `getTicket` and
`getTicketComments`: fetch the current path, append `data.comments` to the
accumulator, continue at the normalized continuation path while one
exists. -/
def getCommentsLoop (fetch : String → Except ε (PageResponse α)) (baseURL : String) :
    Nat → String → List α → Option (Except ε (List α))
  | 0, _, _ => none
  | Nat.succ fuel, url, acc =>
    match fetch url with
    | Except.error e => some (Except.error e)
    | Except.ok page =>
      match nextUrlOf baseURL page with
      | none => some (Except.ok (acc ++ page.comments))
      | some u2 => getCommentsLoop fetch baseURL fuel u2 (acc ++ page.comments)

/-- Seed path of the loop: `/tickets/${ticketId}/comments.json?sort_order=asc`. -/
def commentsSeedUrl (ticketId : Nat) : String :=
  "/tickets/" ++ toString ticketId ++ "/comments.json?sort_order=asc"

/-- Return value of `getTicketComments`. -/
structure CommentsResult (α : Type) where
  comments : List α
  count : Nat
deriving DecidableEq

/-- `ZendeskClient.getTicketComments`: run the pagination loop from the
seed path and return the accumulated comments with `count` set to the
accumulator's length. -/
def getTicketComments (fuel : Nat) (fetch : String → Except ε (PageResponse α))
    (baseURL : String) (ticketId : Nat) : Option (Except ε (CommentsResult α)) :=
  match getCommentsLoop fetch baseURL fuel (commentsSeedUrl ticketId) [] with
  | none => none
  | some (Except.error e) => some (Except.error e)
  | some (Except.ok l) => some (Except.ok { comments := l, count := l.length })

/-- Return value of `getTicket`. -/
structure TicketResult (τ α : Type) where
  ticket : τ
  comments : List α
  total_comments : Nat
deriving DecidableEq

/-- `ZendeskClient.getTicket`: fetch the ticket itself, then run the same
pagination loop over the ticket's comments; `total_comments` is the
accumulator's length.  A failure of either fetch propagates. -/
def getTicket (fuel : Nat) (fetchTicket : Except ε τ)
    (fetch : String → Except ε (PageResponse α)) (baseURL : String)
    (ticketId : Nat) : Option (Except ε (TicketResult τ α)) :=
  match fetchTicket with
  | Except.error e => some (Except.error e)
  | Except.ok t =>
    match getCommentsLoop fetch baseURL fuel (commentsSeedUrl ticketId) [] with
    | none => none
    | some (Except.error e) => some (Except.error e)
    | some (Except.ok l) =>
      some (Except.ok { ticket := t, comments := l, total_comments := l.length })

/-- Specification-side description of a well-formed paginated run: starting
at `url`, the remote collaborator serves exactly the pages `pages` in fetch
order, each page but the last carrying a continuation that the loop
normalizes to the next requested path, and the last page carrying none. -/
inductive Serves (fetch : String → Except ε (PageResponse α)) (baseURL : String) :
    String → List (PageResponse α) → Prop
  | last (url : String) (p : PageResponse α) :
      fetch url = Except.ok p → nextUrlOf baseURL p = none →
      Serves fetch baseURL url [p]
  | step (url u2 : String) (p : PageResponse α) (ps : List (PageResponse α)) :
      fetch url = Except.ok p → nextUrlOf baseURL p = some u2 →
      Serves fetch baseURL u2 ps →
      Serves fetch baseURL url (p :: ps)

/-- Specification-side description of a run that fails: starting at `url`,
`k` pages are served successfully (each with a live continuation) and the
fetch of the following page fails with `e`. -/
inductive FailsAt (fetch : String → Except ε (PageResponse α)) (baseURL : String) :
    String → Nat → ε → Prop
  | here (url : String) (e : ε) :
      fetch url = Except.error e → FailsAt fetch baseURL url 0 e
  | step (url u2 : String) (p : PageResponse α) (k : Nat) (e : ε) :
      fetch url = Except.ok p → nextUrlOf baseURL p = some u2 →
      FailsAt fetch baseURL u2 k e →
      FailsAt fetch baseURL url (k + 1) e

/-!
## Ticket search (ZendeskClient.searchTickets)
-/

/-- The fields of `response.data` that `searchTickets` reads. -/
structure TicketSearchData (τ : Type) where
  results : Option (List τ)
  count : Option Nat
  next_page : Option String
deriving DecidableEq

/-- An axios-style error: `error.code` and `error.message`. -/
structure AxiosLikeError where
  code : Option String
  message : String
deriving DecidableEq

/-- Return value of `searchTickets`: the normal payload, or the
success-shaped fallback produced when the remote call times out (that
payload has no `next_page`/`limited` fields and carries an embedded
`error` string instead). -/
inductive SearchTicketsResult (τ : Type) where
  | payload (results : List τ) (count : Nat) (total_count : Nat)
      (next_page : Option String) (limited : Bool)
  | timeoutFallback (results : List τ) (count : Nat) (total_count : Nat)
      (error : String)
deriving DecidableEq

/-- `ZendeskClient.searchTickets`: on success, truncate
`response.data.results` to `maxResults` and report counts and the
`limited` flag; on an `ECONNABORTED` error or an error whose message
contains `'timeout'`, fold the failure into a success-shaped empty payload
with an explanatory `error` field; rethrow every other error. -/
def searchTickets (fetch : Except AxiosLikeError (TicketSearchData τ))
    (maxResults : Nat) : Except AxiosLikeError (SearchTicketsResult τ) :=
  match fetch with
  | Except.ok d =>
    let results := d.results.getD []
    let limitedResults := results.take maxResults
    Except.ok (SearchTicketsResult.payload limitedResults limitedResults.length
      (jsOrNat d.count 0) (jsStrOrNull d.next_page)
      (decide (limitedResults.length < jsOrNat d.count 0)))
  | Except.error e =>
    if e.code = some "ECONNABORTED" ∨ jsIncludes e.message "timeout" = true then
      Except.ok (SearchTicketsResult.timeoutFallback [] 0 0
        "検索がタイムアウトしました。検索条件を絞り込んでください。")
    else
      Except.error e

/-!
## Help-center article search (ZendeskClient.convertToCustomUrl /
ZendeskClient.searchArticles)
-/

/-- `ZendeskClient.convertToCustomUrl`: when a custom help-center URL is
configured, rewrite every occurrence of
`https://${subdomain}.zendesk.com/hc/` (the source builds a global regex
with the dots escaped, so it matches that literal string) to
`${helpCenterUrl}/hc/`; otherwise return the URL unchanged. -/
def convertToCustomUrl (subdomain : String) (helpCenterUrl : Option String)
    (zendeskUrl : String) : String :=
  match helpCenterUrl with
  | none => zendeskUrl
  | some custom =>
    jsReplaceAll zendeskUrl ("https://" ++ subdomain ++ ".zendesk.com/hc/")
      (custom ++ "/hc/")

/-- A search hit from `/help_center/articles/search.json`:
`article.id/title/snippet/html_url` as read by `searchArticles`. -/
structure ArticleSummary where
  id : Nat
  title : Option String
  snippet : Option String
  html_url : Option String
deriving DecidableEq

/-- `detailResponse.data.article` as read by `searchArticles`. -/
structure ArticleDetail where
  id : Nat
  title : String
  body : String
  section_id : Nat
  created_at : String
  updated_at : String
  locale : String
  draft : Bool
  html_url : String
deriving DecidableEq

/-- The record `searchArticles` builds for one surviving candidate. -/
structure EnrichedArticle where
  id : Nat
  title : String
  url : String
  snippet : String
  body : String
  section_id : Nat
  created_at : String
  updated_at : String
  locale : String
  draft : Bool
deriving DecidableEq

/-- The per-candidate enrichment closure inside `searchArticles`
(`results.slice(0, 10).map(async (article) => ...)`): fetch the article
detail; on failure, or when the detail is a draft, produce `null`
(modelled as `none`); otherwise merge summary and detail fields, applying
the custom-domain rewrite to `article.html_url || articleData.html_url`. -/
def enrichOne (subdomain : String) (helpCenterUrl : Option String)
    (fetchDetail : Nat → Except String ArticleDetail)
    (a : ArticleSummary) : Option EnrichedArticle :=
  match fetchDetail a.id with
  | Except.error _ => none
  | Except.ok d =>
    if d.draft = true then none
    else
      some {
        id := d.id,
        title := jsOrStr a.title d.title,
        url := convertToCustomUrl subdomain helpCenterUrl (jsOrStr a.html_url d.html_url),
        snippet := jsOrStr a.snippet "",
        body := d.body,
        section_id := d.section_id,
        created_at := d.created_at,
        updated_at := d.updated_at,
        locale := d.locale,
        draft := d.draft }

/-- The fields of the search response that `searchArticles` reads. -/
structure HCSearchData where
  results : Option (List ArticleSummary)
  page : Option Nat
  page_count : Option Nat
deriving DecidableEq

/-- The error information the outer catch of `searchArticles` reads:
`error.response?.data?.error`, `error.message`, `error.response?.status`. -/
structure HCError where
  dataError : Option String
  message : Option String
  status : Option Nat
deriving DecidableEq

/-- `${errorStatus}` interpolation of a possibly-absent HTTP status. -/
def hcStatusStr (o : Option Nat) : String :=
  match o with
  | none => "undefined"
  | some n => toString n

/-- Return value of `searchArticles`; the branch-specific `message` and
`error` fields are `Option`s because each branch emits only some of them. -/
structure SearchArticlesResult where
  results : List EnrichedArticle
  count : Nat
  page : Nat
  page_count : Nat
  message : Option String
  error : Option String
deriving DecidableEq

/-- `ZendeskClient.searchArticles`: search, then enrich the first 10 hits
concurrently (completion order does not affect the result, so the
`Promise.all` is modelled as a map in input order), drop the `null`
markers, and return the first 5 survivors; empty search results and an
empty survivor set each produce a distinct message on a success-shaped
payload; a failure of the search itself produces the catch branch's
error payload. -/
def searchArticles (subdomain : String) (helpCenterUrl : Option String)
    (search : Except HCError HCSearchData)
    (fetchDetail : Nat → Except String ArticleDetail) : SearchArticlesResult :=
  match search with
  | Except.error e =>
    { results := [], count := 0, page := 1, page_count := 0, message := none,
      error := some ("ヘルプセンター検索エラー: " ++
        jsOrStr e.dataError (jsOrStr e.message "不明なエラー") ++
        " (ステータス: " ++ hcStatusStr e.status ++ ")") }
  | Except.ok resp =>
    let results := resp.results.getD []
    if results.length = 0 then
      { results := [], count := 0, page := 1, page_count := 0,
        message := some "検索結果が見つかりませんでした", error := none }
    else
      let articlesWithDetails :=
        (results.take 10).map (enrichOne subdomain helpCenterUrl fetchDetail)
      let publicArticles := articlesWithDetails.filterMap id
      if publicArticles.length = 0 then
        { results := [], count := 0, page := 1, page_count := 0,
          message := some "公開されている記事が見つかりませんでした", error := none }
      else
        { results := publicArticles.take 5, count := publicArticles.length,
          page := jsOrNat resp.page 1, page_count := jsOrNat resp.page_count 1,
          message := none, error := none }

/-!
## Tool dispatch (the CallToolRequestSchema handlers)

Both entry points dispatch on the tool name with a string switch.  The
per-tool client call (argument coercion, the client method, and the
`JSON.stringify` of its result) is abstracted as a function `call` from the
tool name and argument mapping to either the serialized success payload or
the thrown error's message; the dispatcher's own control flow — the
credentials guard, the missing-arguments guard, the known-name switch, the
default case, and the surrounding try/catch — is modelled explicitly.
-/

/-- An argument mapping (`request.params.arguments`). -/
def ArgMap : Type := List (String × String)

/-- A response envelope: the single text content block and the `isError`
flag (absent modelled as `false`). -/
structure ToolResponse where
  text : String
  isError : Bool
deriving DecidableEq

/-- The case labels of the `switch (name)` in `index.ts`. -/
def TOOL_NAMES : List String :=
  ["search_tickets", "get_ticket", "create_ticket", "update_ticket",
   "add_comment", "get_ticket_comments", "search_users", "get_user",
   "search_organizations", "get_organization", "search_articles",
   "get_article", "get_articles_by_section"]

/-- The fixed credentials-not-configured message of both entry points. -/
def CREDS_MSG : String :=
  "Error: Zendesk credentials not configured. Please set ZENDESK_SUBDOMAIN, ZENDESK_EMAIL, and ZENDESK_API_TOKEN environment variables."

/-- The `CallToolRequestSchema` handler of `index.ts`: credentials guard
(its envelope carries no `isError` flag), missing-arguments guard, switch
over the known tool names with the default case returning the
`Unknown tool` envelope, and the catch wrapping any error thrown by a tool
call as `Error: ${message}` with the error flag set. -/
def handleCallTool (clientConfigured : Bool)
    (call : String → ArgMap → Except String String)
    (name : String) (args : Option ArgMap) : ToolResponse :=
  if clientConfigured = false then
    { text := CREDS_MSG, isError := false }
  else
    match args with
    | none => { text := "Error: No arguments provided", isError := true }
    | some a =>
      if name ∈ TOOL_NAMES then
        match call name a with
        | Except.ok r => { text := r, isError := false }
        | Except.error e => { text := "Error: " ++ e, isError := true }
      else
        { text := "Unknown tool: " ++ name, isError := true }

/-- The case labels of the `switch (name)` in `server.ts` `executeTool`. -/
def SERVER_TOOL_NAMES : List String :=
  ["search_tickets", "get_ticket", "create_ticket", "update_ticket",
   "add_comment", "get_ticket_comments", "search_users", "get_user",
   "search_organizations", "get_organization"]

/-- `executeTool` of `server.ts`: throws (returns `Except.error`) on a
missing client or an unknown name, otherwise delegates to the named
client call. -/
def executeTool (clientConfigured : Bool)
    (call : String → ArgMap → Except String String)
    (name : String) (a : ArgMap) : Except String String :=
  if clientConfigured = false then
    Except.error "Zendesk credentials not configured"
  else if name ∈ SERVER_TOOL_NAMES then
    call name a
  else
    Except.error ("Unknown tool: " ++ name)

/-- The `CallToolRequestSchema` handler of `server.ts`: credentials guard
(here with the error flag set), missing-arguments guard, then
`executeTool` inside the try/catch. -/
def serverHandleCallTool (clientConfigured : Bool)
    (call : String → ArgMap → Except String String)
    (name : String) (args : Option ArgMap) : ToolResponse :=
  if clientConfigured = false then
    { text := CREDS_MSG, isError := true }
  else
    match args with
    | none => { text := "Error: No arguments provided", isError := true }
    | some a =>
      match executeTool true call name a with
      | Except.ok r => { text := r, isError := false }
      | Except.error e => { text := "Error: " ++ e, isError := true }

/-!
## Streaming-transport session handling (app.all("/mcp") in server.ts)
-/

/-- The request-body fields `isInitializeRequest` inspects. -/
structure McpBody where
  jsonrpc : Option String
  method : Option String
  hasParams : Bool
deriving DecidableEq

/-- `isInitializeRequest(body)`: the body is truthy (`none` models a
falsy/absent body), `body.jsonrpc === "2.0"`, `body.method ===
"initialize"`, and `body.params !== undefined`. -/
def isInitRequest (body : Option McpBody) : Bool :=
  match body with
  | none => false
  | some b =>
    b.jsonrpc = some "2.0" && b.method = some "initialize" && b.hasParams

/-- One HTTP request to the `/mcp` endpoint: the method, the
`mcp-session-id` header, and the parsed body. -/
structure McpRequest where
  method : String
  sessionIdHeader : Option String
  body : Option McpBody
deriving DecidableEq

/-- `const transport = sessionId ? transports[sessionId] : undefined`:
the header must be present, truthy (non-empty), and name a live entry of
the session table. -/
def resolveSession (table : List String) (header : Option String) : Option String :=
  match header with
  | none => none
  | some sid => if sid ≠ "" ∧ sid ∈ table then some sid else none

/-- Observable outcome of one `/mcp` request. -/
inductive McpResult where
  | clientError (status : Nat) (code : Int) (idIsNull : Bool)
  | handled (sessionId : String)
  | newSession (sessionId : String)
deriving DecidableEq

/-- The `app.all("/mcp")` handler: resolve the session from the header; if
none resolves and the request is a `POST` whose body passes
`isInitializeRequest`, create and register a fresh transport (its
generated session id is the `freshId` parameter); if none resolves
otherwise, answer HTTP 400 with the JSON-RPC error `{ code: -32000, ... ,
id: null }` and leave the table unchanged; if one resolves, route the
request to it.  The returned list is the session table after the
request. -/
def handleMcp (table : List String) (freshId : String) (req : McpRequest) :
    McpResult × List String :=
  match resolveSession table req.sessionIdHeader with
  | some sid => (McpResult.handled sid, table)
  | none =>
    if req.method = "POST" ∧ isInitRequest req.body = true then
      (McpResult.newSession freshId, freshId :: table)
    else
      (McpResult.clientError 400 (-32000) true, table)

/-!
## Concrete instances used by the witness theorems
-/

/-- Base URL for a concrete client configuration. -/
def wBaseURL : String := "https://acme.zendesk.com/api/v2"

/-- First comments page: two items, absolute continuation URL. -/
def wPage1 : PageResponse Nat :=
  { comments := [10, 20], next_page := some (wBaseURL ++ "/p2") }

/-- Second comments page: one item, no continuation. -/
def wPage2 : PageResponse Nat :=
  { comments := [30], next_page := none }

/-- A remote collaborator serving the two pages above for ticket 1. -/
def wFetch : String → Except String (PageResponse Nat) := fun url =>
  if url = commentsSeedUrl 1 then Except.ok wPage1
  else if url = "/p2" then Except.ok wPage2
  else Except.error "not found"

/-- A remote collaborator that serves page 1 for ticket 2 and fails on the
second page. -/
def wFailFetch : String → Except String (PageResponse Nat) := fun url =>
  if url = commentsSeedUrl 2 then Except.ok wPage1
  else Except.error "boom"

/-- A tool-call executor whose `get_ticket_comments` call fails. -/
def wFailCall : String → ArgMap → Except String String :=
  fun _ _ => Except.error "boom"

/-- Search hit whose detail fetch will fail. -/
def wArtA : ArticleSummary :=
  { id := 1, title := some "A", snippet := some "sa", html_url := none }

/-- Search hit whose detail will be a draft. -/
def wArtB : ArticleSummary :=
  { id := 2, title := some "B", snippet := none, html_url := none }

/-- Search hit whose detail succeeds and is public. -/
def wArtC : ArticleSummary :=
  { id := 3, title := none, snippet := some "sc",
    html_url := some "https://acme.zendesk.com/hc/ja/articles/3" }

/-- Public detail record for article 3. -/
def wDetailC : ArticleDetail :=
  { id := 3, title := "C", body := "body-c", section_id := 9,
    created_at := "2024-01-01", updated_at := "2024-01-02", locale := "ja",
    draft := false, html_url := "https://acme.zendesk.com/hc/ja/articles/3" }

/-- Draft detail record for article 2. -/
def wDetailB : ArticleDetail :=
  { id := 2, title := "B", body := "body-b", section_id := 9,
    created_at := "2024-01-01", updated_at := "2024-01-02", locale := "ja",
    draft := true, html_url := "https://acme.zendesk.com/hc/ja/articles/2" }

/-- Detail fetcher: fails on article 1, serves a draft for article 2 and a
public article for article 3. -/
def wDetailFetch : Nat → Except String ArticleDetail := fun i =>
  if i = 1 then Except.error "down"
  else if i = 2 then Except.ok wDetailB
  else if i = 3 then Except.ok wDetailC
  else Except.error "absent"

/-- A second detail fetcher agreeing with `wDetailFetch` on articles 1-3
but differing elsewhere. -/
def wDetailFetch2 : Nat → Except String ArticleDetail := fun i =>
  if i = 1 then Except.error "down"
  else if i = 2 then Except.ok wDetailB
  else if i = 3 then Except.ok wDetailC
  else Except.ok wDetailC

/-- Search response carrying the three hits above. -/
def wHCResp : HCSearchData :=
  { results := some [wArtA, wArtB, wArtC], page := some 1, page_count := some 1 }

/-- Search response with no hits. -/
def wHCRespEmpty : HCSearchData :=
  { results := some [], page := some 1, page_count := some 1 }

/-- Search response whose only hits are the failing and the draft ones. -/
def wHCRespFiltered : HCSearchData :=
  { results := some [wArtA, wArtB], page := some 1, page_count := some 1 }

/-- Timeout-shaped axios error. -/
def wTimeoutErr : AxiosLikeError := { code := some "ECONNABORTED", message := "x" }

/-- Non-timeout axios error. -/
def wOtherErr : AxiosLikeError := { code := none, message := "bad request" }

/-- Search payload for the ticket-search witness. -/
def wTicketSearch : TicketSearchData Nat :=
  { results := some [1, 2, 3], count := some 7, next_page := some "np" }

/-- Session table with one live session. -/
def wTable : List String := ["live-1"]

/-- A non-handshake request bearing a stale session identifier. -/
def wStaleReq : McpRequest :=
  { method := "POST", sessionIdHeader := some "closed-7",
    body := some { jsonrpc := some "2.0", method := some "tools/call", hasParams := true } }

/-!
## Lemmas about the JavaScript string primitives
-/

theorem isPrefixOf_append_self (l t : List Char) : l.isPrefixOf (l ++ t) = true := by
  induction l with
  | nil => simp [List.isPrefixOf]
  | cons c cs ih => simp [List.isPrefixOf, ih]

theorem replaceFirstL_strip_lead (pat rep rest : List Char) :
    replaceFirstL pat rep (pat ++ rest) = rep ++ rest := by
  cases pat with
  | nil =>
    cases rest with
    | nil => simp [replaceFirstL]
    | cons c cs => simp [replaceFirstL, List.isPrefixOf]
  | cons p ps =>
    show replaceFirstL (p :: ps) rep (p :: (ps ++ rest)) = rep ++ rest
    rw [replaceFirstL]
    have hpre : (p :: ps).isPrefixOf (p :: (ps ++ rest)) = true :=
      isPrefixOf_append_self (p :: ps) rest
    simp only [hpre, if_pos]
    have : List.drop (p :: ps).length (p :: (ps ++ rest)) = rest := by
      simp only [List.length_cons, List.drop_succ_cons]
      exact List.drop_left ps rest
    rw [this]

theorem replaceAllL_of_not_contains (pat rep : List Char) (l : List Char)
    (h : containsSubL pat l = false) : replaceAllL pat rep l = l := by
  induction l with
  | nil => simp [replaceAllL]
  | cons c cs ih =>
    rw [containsSubL] at h
    rw [Bool.or_eq_false_iff] at h
    rw [replaceAllL]
    rw [if_neg]
    · rw [ih h.2]
    · intro hc
      rw [hc.1] at h
      simp at h

theorem replaceAllL_strip_lead (pat rep rest : List Char) (hpat : pat ≠ [])
    (h : containsSubL pat rest = false) :
    replaceAllL pat rep (pat ++ rest) = rep ++ rest := by
  cases pat with
  | nil => exact absurd rfl hpat
  | cons p ps =>
    show replaceAllL (p :: ps) rep (p :: (ps ++ rest)) = rep ++ rest
    rw [replaceAllL]
    have hpre : (p :: ps).isPrefixOf (p :: (ps ++ rest)) = true :=
      isPrefixOf_append_self (p :: ps) rest
    rw [if_pos ⟨hpre, hpat⟩]
    have hd : List.drop ((p :: ps).length - 1) (ps ++ rest) = rest := by
      simp only [List.length_cons, Nat.add_sub_cancel]
      exact List.drop_left ps rest
    rw [hd, replaceAllL_of_not_contains (p :: ps) rep rest h]

theorem string_data_append (a b : String) : (a ++ b).data = a.data ++ b.data := by
  cases a
  cases b
  rfl

theorem string_mk_data (s : String) : String.mk s.data = s := by
  cases s
  rfl

theorem jsReplaceFirst_strip_lead (base path : String) :
    jsReplaceFirst (base ++ path) base "" = path := by
  rw [jsReplaceFirst, string_data_append]
  show String.mk (replaceFirstL base.data [] (base.data ++ path.data)) = path
  rw [replaceFirstL_strip_lead]
  exact string_mk_data path

theorem string_append_ne_empty_of_right (base path : String) (h : path ≠ "") :
    base ++ path ≠ "" := by
  intro hc
  apply h
  have hdata : (base ++ path).data = [] := by rw [hc]
  rw [string_data_append] at hdata
  have : path.data = [] := (List.append_eq_nil.mp hdata).2
  cases path
  simp_all

/-!
## Lemmas about the pagination loop
-/

theorem getCommentsLoop_of_serves (fetch : String → Except ε (PageResponse α))
    (baseURL : String) :
    ∀ {url : String} {pages : List (PageResponse α)},
      Serves fetch baseURL url pages →
      ∀ (fuel : Nat) (acc : List α), pages.length ≤ fuel →
        getCommentsLoop fetch baseURL fuel url acc =
          some (Except.ok (acc ++ (pages.map PageResponse.comments).flatten)) := by
  intro url pages hserves
  induction hserves with
  | last url p hf hn =>
    intro fuel acc hfuel
    match fuel, hfuel with
    | Nat.succ fuel, _ =>
      simp [getCommentsLoop, hf, hn]
  | step url u2 p ps hf hn _ ih =>
    intro fuel acc hfuel
    match fuel, hfuel with
    | Nat.succ fuel, hfuel =>
      have hle : ps.length ≤ fuel := by
        simp only [List.length_cons] at hfuel
        omega
      simp [getCommentsLoop, hf, hn, ih fuel (acc ++ p.comments) hle]

theorem getCommentsLoop_of_failsAt (fetch : String → Except ε (PageResponse α))
    (baseURL : String) :
    ∀ {url : String} {k : Nat} {e : ε},
      FailsAt fetch baseURL url k e →
      ∀ (fuel : Nat) (acc : List α), k < fuel →
        getCommentsLoop fetch baseURL fuel url acc = some (Except.error e) := by
  intro url k e hfail
  induction hfail with
  | here url e hf =>
    intro fuel acc hfuel
    match fuel, hfuel with
    | Nat.succ fuel, _ =>
      simp [getCommentsLoop, hf]
  | step url u2 p k e hf hn _ ih =>
    intro fuel acc hfuel
    match fuel, hfuel with
    | Nat.succ fuel, hfuel =>
      have hlt : k < fuel := by omega
      simp [getCommentsLoop, hf, hn, ih fuel (acc ++ p.comments) hlt]

/-!
## Claim theorems
-/

/-- C1: for every well-formed sequence of comment pages served by the
remote collaborator, `getTicketComments` (and the identical loop in
`getTicket`) returns the concatenation of the pages' comment arrays in
fetch order, and the returned count (`total_comments` in `getTicket`)
equals the sum of the page lengths. -/
theorem getTicketComments_concat_pages
    (fetch : String → Except ε (PageResponse α)) (baseURL : String)
    (tid fuel : Nat) (pages : List (PageResponse α)) (t : τ)
    (hserves : Serves fetch baseURL (commentsSeedUrl tid) pages)
    (hfuel : pages.length ≤ fuel) :
    getTicketComments fuel fetch baseURL tid =
      some (Except.ok
        { comments := (pages.map PageResponse.comments).flatten,
          count := (pages.map (fun p => p.comments.length)).sum }) ∧
    getTicket fuel (Except.ok t) fetch baseURL tid =
      some (Except.ok
        { ticket := t,
          comments := (pages.map PageResponse.comments).flatten,
          total_comments := (pages.map (fun p => p.comments.length)).sum }) := by
  have hloop := getCommentsLoop_of_serves fetch baseURL hserves fuel [] hfuel
  have hcount : ((pages.map PageResponse.comments).flatten).length =
      (pages.map (fun p => p.comments.length)).sum := by
    rw [List.length_flatten, List.map_map]
    rfl
  constructor
  · rw [getTicketComments, hloop]
    simp [hcount]
  · rw [getTicket, hloop]
    simp [hcount]

/-- Witness for C1: a concrete two-page run (pages `[10, 20]` and `[30]`)
aggregates to `[10, 20, 30]` with count 3. -/
theorem getTicketComments_concat_pages_witness :
    Serves wFetch wBaseURL (commentsSeedUrl 1) [wPage1, wPage2] ∧
    ([wPage1, wPage2] : List (PageResponse Nat)).length ≤ 2 ∧
    getTicketComments 2 wFetch wBaseURL 1 =
      some (Except.ok { comments := [10, 20, 30], count := 3 }) ∧
    getTicket 2 (Except.ok 7) wFetch wBaseURL 1 =
      some (Except.ok { ticket := 7, comments := [10, 20, 30], total_comments := 3 }) := by
  have hs : Serves wFetch wBaseURL (commentsSeedUrl 1) [wPage1, wPage2] :=
    Serves.step (commentsSeedUrl 1) "/p2" wPage1 [wPage2] rfl (by decide)
      (Serves.last "/p2" wPage2 rfl (by decide))
  have h := getTicketComments_concat_pages wFetch wBaseURL 1 2 [wPage1, wPage2] 7 hs
    (by decide)
  exact ⟨hs, by decide, h.1, h.2⟩

/-- C6: if the remote collaborator fails on page k+1 after k ≥ 1 successful
pages, the aggregation returns the failure with no partial accumulator, and
at the dispatcher boundary such a failing `get_ticket_comments` call is
wrapped as an error-flagged tool failure rather than a partial result. -/
theorem pagination_failure_propagates
    (fetch : String → Except String (PageResponse α)) (baseURL : String)
    (tid fuel k : Nat) (e : String)
    (hfail : FailsAt fetch baseURL (commentsSeedUrl tid) k e)
    (_hk : 1 ≤ k) (hfuel : k < fuel) :
    getTicketComments fuel fetch baseURL tid = some (Except.error e) ∧
    (∀ r : CommentsResult α,
      getTicketComments fuel fetch baseURL tid ≠ some (Except.ok r)) ∧
    (∀ (call : String → ArgMap → Except String String) (a : ArgMap),
      call "get_ticket_comments" a = Except.error e →
      handleCallTool true call "get_ticket_comments" (some a) =
        { text := "Error: " ++ e, isError := true }) := by
  have hloop := getCommentsLoop_of_failsAt fetch baseURL hfail fuel [] hfuel
  have h1 : getTicketComments fuel fetch baseURL tid = some (Except.error e) := by
    rw [getTicketComments, hloop]
  refine ⟨h1, ?_, ?_⟩
  · intro r hc
    rw [h1] at hc
    simp at hc
  · intro call a hcall
    simp [handleCallTool, hcall, TOOL_NAMES]

/-- Witness for C6: after one successful page for ticket 2, the second
fetch fails with "boom"; the aggregation yields that failure and the
dispatcher wraps it in an error envelope. -/
theorem pagination_failure_propagates_witness :
    FailsAt wFailFetch wBaseURL (commentsSeedUrl 2) 1 "boom" ∧
    (1 : Nat) ≤ 1 ∧ 1 < 3 ∧
    getTicketComments 3 wFailFetch wBaseURL 2 = some (Except.error "boom") ∧
    handleCallTool true wFailCall "get_ticket_comments" (some []) =
      { text := "Error: boom", isError := true } := by
  have hf : FailsAt wFailFetch wBaseURL (commentsSeedUrl 2) 1 "boom" :=
    FailsAt.step (commentsSeedUrl 2) "/p2" wPage1 0 "boom" rfl (by decide)
      (FailsAt.here "/p2" "boom" rfl)
  have h := pagination_failure_propagates wFailFetch wBaseURL 2 3 1 "boom" hf
    (by decide) (by decide)
  exact ⟨hf, by decide, by decide, h.1, h.2.2 wFailCall [] rfl⟩

/-- C7: during pagination, an absolute continuation URL carrying the
configured base-URL origin is normalized by stripping that prefix before
the next page is requested, and the loop terminates exactly on a page with
no continuation reference. -/
theorem continuation_normalization
    (fetch : String → Except ε (PageResponse α)) (baseURL : String) (fuel : Nat) :
    (∀ (url path : String) (page : PageResponse α) (acc : List α),
      fetch url = Except.ok page →
      page.next_page = some (baseURL ++ path) →
      path ≠ "" →
      getCommentsLoop fetch baseURL (fuel + 1) url acc =
        getCommentsLoop fetch baseURL fuel path (acc ++ page.comments)) ∧
    (∀ (url : String) (page : PageResponse α) (acc : List α),
      fetch url = Except.ok page →
      page.next_page = none →
      getCommentsLoop fetch baseURL (fuel + 1) url acc =
        some (Except.ok (acc ++ page.comments))) := by
  constructor
  · intro url path page acc hfetch hnext hpath
    have hnp : baseURL ++ path ≠ "" := string_append_ne_empty_of_right baseURL path hpath
    have hstrip : jsReplaceFirst (baseURL ++ path) baseURL "" = path :=
      jsReplaceFirst_strip_lead baseURL path
    have hnexturl : nextUrlOf baseURL page = some path := by
      rw [nextUrlOf, hnext]
      simp [hnp, hstrip, hpath]
    simp [getCommentsLoop, hfetch, hnexturl]
  · intro url page acc hfetch hnext
    have hnexturl : nextUrlOf baseURL page = none := by
      rw [nextUrlOf, hnext]
    simp [getCommentsLoop, hfetch, hnexturl]

/-- Witness for C7: with the concrete two-page collaborator, the absolute
continuation `wBaseURL ++ "/p2"` leads the loop to request the relative
path `/p2`, and the final page (no continuation) terminates the loop. -/
theorem continuation_normalization_witness :
    wFetch (commentsSeedUrl 1) = Except.ok wPage1 ∧
    wPage1.next_page = some (wBaseURL ++ "/p2") ∧
    ("/p2" : String) ≠ "" ∧
    getCommentsLoop wFetch wBaseURL 2 (commentsSeedUrl 1) [] =
      getCommentsLoop wFetch wBaseURL 1 "/p2" [10, 20] ∧
    wFetch "/p2" = Except.ok wPage2 ∧
    wPage2.next_page = none ∧
    getCommentsLoop wFetch wBaseURL 1 "/p2" [10, 20] =
      some (Except.ok [10, 20, 30]) := by
  have h := continuation_normalization wFetch wBaseURL 1
  have h2 := continuation_normalization wFetch wBaseURL 0
  refine ⟨rfl, by decide, by decide, ?_, rfl, by decide, ?_⟩
  · exact h.1 (commentsSeedUrl 1) "/p2" wPage1 [] rfl (by decide) (by decide)
  · exact h2.2 "/p2" wPage2 [10, 20] rfl (by decide)

/-- C8: `convertToCustomUrl` is the identity when no custom help-center
domain is configured; when one is configured, a canonical URL consisting of
the fixed-origin prefix `https://<subdomain>.zendesk.com/hc/` followed by a
remainder not containing that prefix again is rewritten to the custom
domain with the remainder untouched. -/
theorem convertToCustomUrl_spec (sub custom url rest : String) :
    convertToCustomUrl sub none url = url ∧
    (url = "https://" ++ sub ++ ".zendesk.com/hc/" ++ rest →
     jsIncludes rest ("https://" ++ sub ++ ".zendesk.com/hc/") = false →
     convertToCustomUrl sub (some custom) url = custom ++ "/hc/" ++ rest) := by
  constructor
  · rfl
  · intro hurl hrest
    subst hurl
    rw [jsIncludes] at hrest
    simp only [convertToCustomUrl, jsReplaceAll, string_data_append] at hrest ⊢
    have hne : ("https://".data ++ sub.data) ++ ".zendesk.com/hc/".data ≠ [] := by
      intro h
      exact absurd (List.append_eq_nil.mp h).2 (by decide)
    rw [replaceAllL_strip_lead _ _ _ hne hrest]
    cases custom
    cases rest
    rfl

/-- Witness for C8: a concrete article URL is untouched without a custom
domain, and with one configured only the origin prefix is rewritten. -/
theorem convertToCustomUrl_spec_witness :
    convertToCustomUrl "acme" none "https://acme.zendesk.com/hc/ja/articles/3" =
      "https://acme.zendesk.com/hc/ja/articles/3" ∧
    ("https://acme.zendesk.com/hc/ja/articles/3" : String) =
      "https://" ++ "acme" ++ ".zendesk.com/hc/" ++ "ja/articles/3" ∧
    jsIncludes "ja/articles/3" ("https://" ++ "acme" ++ ".zendesk.com/hc/") = false ∧
    convertToCustomUrl "acme" (some "https://help.example.com")
      "https://acme.zendesk.com/hc/ja/articles/3" =
      "https://help.example.com" ++ "/hc/" ++ "ja/articles/3" := by
  have h := convertToCustomUrl_spec "acme" "https://help.example.com"
    "https://acme.zendesk.com/hc/ja/articles/3" "ja/articles/3"
  exact ⟨h.1, by decide, by decide, h.2 (by decide) (by decide)⟩

/-- C10: a timeout of the remote search (`ECONNABORTED` code or an error
message containing `'timeout'`) is folded by `searchTickets` into a
success-shaped payload with empty results, zero counts and an embedded
explanatory `error` field, while every non-timeout error is rethrown. -/
theorem searchTickets_timeout_folded {τ : Type} (e : AxiosLikeError) (m : Nat) :
    (e.code = some "ECONNABORTED" ∨ jsIncludes e.message "timeout" = true →
      searchTickets (Except.error e : Except AxiosLikeError (TicketSearchData τ)) m =
        Except.ok (SearchTicketsResult.timeoutFallback [] 0 0
          "検索がタイムアウトしました。検索条件を絞り込んでください。")) ∧
    (¬ (e.code = some "ECONNABORTED" ∨ jsIncludes e.message "timeout" = true) →
      searchTickets (Except.error e : Except AxiosLikeError (TicketSearchData τ)) m =
        Except.error e) := by
  constructor
  · intro h
    simp [searchTickets, h]
  · intro h
    simp [searchTickets, h]

/-- Witness for C10: an `ECONNABORTED` error yields the success-shaped
timeout payload; a plain error is rethrown unchanged. -/
theorem searchTickets_timeout_folded_witness :
    (wTimeoutErr.code = some "ECONNABORTED" ∨
      jsIncludes wTimeoutErr.message "timeout" = true) ∧
    searchTickets (Except.error wTimeoutErr : Except AxiosLikeError (TicketSearchData Nat)) 100 =
      Except.ok (SearchTicketsResult.timeoutFallback [] 0 0
        "検索がタイムアウトしました。検索条件を絞り込んでください。") ∧
    ¬ (wOtherErr.code = some "ECONNABORTED" ∨
      jsIncludes wOtherErr.message "timeout" = true) ∧
    searchTickets (Except.error wOtherErr : Except AxiosLikeError (TicketSearchData Nat)) 100 =
      Except.error wOtherErr := by
  refine ⟨Or.inl rfl, ?_, by decide, ?_⟩
  · exact (searchTickets_timeout_folded wTimeoutErr 100).1 (Or.inl rfl)
  · exact (searchTickets_timeout_folded wOtherErr 100).2 (by decide)

/-!
## Lemmas about the enrichment fan-out
-/

theorem enrichOne_congr (sub : String) (hc : Option String)
    (f g : Nat → Except String ArticleDetail) (a : ArticleSummary)
    (h : f a.id = g a.id) :
    enrichOne sub hc f a = enrichOne sub hc g a := by
  rw [enrichOne, enrichOne, h]

theorem publicArticles_eq (sub : String) (hc : Option String)
    (fd : Nat → Except String ArticleDetail) (l : List ArticleSummary) :
    (l.map (enrichOne sub hc fd)).filterMap id = l.filterMap (enrichOne sub hc fd) := by
  rw [List.filterMap_map]
  rfl

theorem searchArticles_ok_def (sub : String) (hc : Option String)
    (fd : Nat → Except String ArticleDetail) (resp : HCSearchData) :
    searchArticles sub hc (Except.ok resp) fd =
      (if (resp.results.getD []).length = 0 then
        { results := [], count := 0, page := 1, page_count := 0,
          message := some "検索結果が見つかりませんでした", error := none }
      else
        if ((((resp.results.getD []).take 10).map (enrichOne sub hc fd)).filterMap id).length = 0 then
          { results := [], count := 0, page := 1, page_count := 0,
            message := some "公開されている記事が見つかりませんでした", error := none }
        else
          { results :=
              ((((resp.results.getD []).take 10).map (enrichOne sub hc fd)).filterMap id).take 5,
            count :=
              ((((resp.results.getD []).take 10).map (enrichOne sub hc fd)).filterMap id).length,
            page := jsOrNat resp.page 1, page_count := jsOrNat resp.page_count 1,
            message := none, error := none }) := rfl

theorem searchArticles_results_structure (sub : String) (hc : Option String)
    (fd : Nat → Except String ArticleDetail) (resp : HCSearchData) :
    (searchArticles sub hc (Except.ok resp) fd).results = [] ∨
    (searchArticles sub hc (Except.ok resp) fd).results =
      (((resp.results.getD []).take 10).filterMap (enrichOne sub hc fd)).take 5 := by
  rw [searchArticles_ok_def]
  by_cases h0 : (resp.results.getD []).length = 0
  · left
    rw [if_pos h0]
  · rw [if_neg h0]
    by_cases h1 :
      ((((resp.results.getD []).take 10).map (enrichOne sub hc fd)).filterMap id).length = 0
    · left
      rw [if_pos h1]
    · right
      rw [if_neg h1]
      show ((((resp.results.getD []).take 10).map (enrichOne sub hc fd)).filterMap id).take 5 = _
      rw [publicArticles_eq]

/-- C2: in every `searchArticles` enrichment batch, only the first 10
candidates influence the result (excess candidates are never fetched); the
result list has at most 5 entries, at most as many as the candidate list,
at most as many as the surviving records; and it is a sublist — hence in
input relative order — of the enrichments of the surviving candidates. -/
theorem searchArticles_enrichment_bounds (sub : String) (hc : Option String)
    (f g : Nat → Except String ArticleDetail) (resp : HCSearchData) :
    ((∀ a ∈ (resp.results.getD []).take 10, f a.id = g a.id) →
      searchArticles sub hc (Except.ok resp) f =
        searchArticles sub hc (Except.ok resp) g) ∧
    (searchArticles sub hc (Except.ok resp) f).results.length ≤ 5 ∧
    (searchArticles sub hc (Except.ok resp) f).results.length ≤
      (resp.results.getD []).length ∧
    (searchArticles sub hc (Except.ok resp) f).results.length ≤
      (((resp.results.getD []).take 10).filterMap (enrichOne sub hc f)).length ∧
    List.Sublist (searchArticles sub hc (Except.ok resp) f).results
      ((resp.results.getD []).filterMap (enrichOne sub hc f)) := by
  have hstruct := searchArticles_results_structure sub hc f resp
  refine ⟨?_, ?_, ?_, ?_, ?_⟩
  · intro hfg
    have hm : ((resp.results.getD []).take 10).map (enrichOne sub hc f) =
        ((resp.results.getD []).take 10).map (enrichOne sub hc g) :=
      List.map_congr_left (fun a ha => enrichOne_congr sub hc f g a (hfg a ha))
    simp only [searchArticles, hm]
  · rcases hstruct with h | h
    · simp [h]
    · rw [h, List.length_take]
      exact min_le_left 5 _
  · rcases hstruct with h | h
    · simp [h]
    · rw [h]
      exact le_trans (List.length_take_le' 5 _)
        (le_trans (List.length_filterMap_le _ _) (List.length_take_le' 10 _))
  · rcases hstruct with h | h
    · simp [h]
    · rw [h]
      exact List.length_take_le' 5 _
  · rcases hstruct with h | h
    · rw [h]
      exact List.nil_sublist _
    · rw [h]
      exact List.Sublist.trans (List.take_sublist 5 _)
        ((List.take_sublist 10 _).filterMap (enrichOne sub hc f))

/-- Witness for C2: with three candidates (one failing fetch, one draft,
one public) the two detail fetchers agreeing on the prefix give equal
results, and all the bounds hold at this instance. -/
theorem searchArticles_enrichment_bounds_witness :
    (∀ a ∈ (wHCResp.results.getD []).take 10, wDetailFetch a.id = wDetailFetch2 a.id) ∧
    searchArticles "acme" none (Except.ok wHCResp) wDetailFetch =
      searchArticles "acme" none (Except.ok wHCResp) wDetailFetch2 ∧
    (searchArticles "acme" none (Except.ok wHCResp) wDetailFetch).results.length ≤ 5 ∧
    (searchArticles "acme" none (Except.ok wHCResp) wDetailFetch).results.length ≤
      (wHCResp.results.getD []).length ∧
    (searchArticles "acme" none (Except.ok wHCResp) wDetailFetch).results.length ≤
      (((wHCResp.results.getD []).take 10).filterMap (enrichOne "acme" none wDetailFetch)).length ∧
    List.Sublist (searchArticles "acme" none (Except.ok wHCResp) wDetailFetch).results
      ((wHCResp.results.getD []).filterMap (enrichOne "acme" none wDetailFetch)) := by
  have hagree : ∀ a ∈ (wHCResp.results.getD []).take 10,
      wDetailFetch a.id = wDetailFetch2 a.id := by
    intro a ha
    fin_cases ha <;> rfl
  have h := searchArticles_enrichment_bounds "acme" none wDetailFetch wDetailFetch2 wHCResp
  exact ⟨hagree, h.1 hagree, h.2.1, h.2.2.1, h.2.2.2.1, h.2.2.2.2⟩

/-- C3: in every `searchArticles` batch, a candidate whose detail fetch
fails and a candidate whose detail is a draft are both mapped to the
absent marker; every returned record comes from a surviving candidate of
the truncated prefix; and as soon as one candidate of the prefix survives,
the batch returns a success payload (no `error`, no empty-result
`message`, non-empty results) — a per-item failure never aborts the
batch. -/
theorem searchArticles_per_item_tolerance (sub : String) (hc : Option String)
    (fd : Nat → Except String ArticleDetail) (resp : HCSearchData) :
    (∀ (a : ArticleSummary) (e : String), fd a.id = Except.error e →
      enrichOne sub hc fd a = none) ∧
    (∀ (a : ArticleSummary) (d : ArticleDetail), fd a.id = Except.ok d →
      d.draft = true → enrichOne sub hc fd a = none) ∧
    (∀ r ∈ (searchArticles sub hc (Except.ok resp) fd).results,
      ∃ x ∈ (resp.results.getD []).take 10, enrichOne sub hc fd x = some r) ∧
    (∀ x ∈ (resp.results.getD []).take 10,
      (enrichOne sub hc fd x).isSome = true →
      (searchArticles sub hc (Except.ok resp) fd).error = none ∧
      (searchArticles sub hc (Except.ok resp) fd).message = none ∧
      (searchArticles sub hc (Except.ok resp) fd).results ≠ []) := by
  refine ⟨?_, ?_, ?_, ?_⟩
  · intro a e he
    simp [enrichOne, he]
  · intro a d hd hdraft
    simp [enrichOne, hd, hdraft]
  · intro r hr
    rcases searchArticles_results_structure sub hc fd resp with h | h
    · rw [h] at hr
      exact absurd hr (List.not_mem_nil r)
    · rw [h] at hr
      have hr2 : r ∈ ((resp.results.getD []).take 10).filterMap (enrichOne sub hc fd) :=
        List.mem_of_mem_take hr
      rcases List.mem_filterMap.mp hr2 with ⟨x, hx, hex⟩
      exact ⟨x, hx, hex⟩
  · intro x hx hsome
    have h0 : ¬ (resp.results.getD []).length = 0 := by
      intro h0
      rw [List.length_eq_zero.mp h0] at hx
      simp at hx
    have hsurvne :
        ((resp.results.getD []).take 10).filterMap (enrichOne sub hc fd) ≠ [] := by
      intro hnil
      rw [List.filterMap_eq_nil_iff] at hnil
      rw [hnil x hx] at hsome
      simp at hsome
    have h1 : ¬ ((((resp.results.getD []).take 10).map
        (enrichOne sub hc fd)).filterMap id).length = 0 := by
      rw [publicArticles_eq]
      intro hl
      exact hsurvne (List.length_eq_zero.mp hl)
    rw [searchArticles_ok_def, if_neg h0, if_neg h1]
    refine ⟨rfl, rfl, ?_⟩
    show ((((resp.results.getD []).take 10).map
        (enrichOne sub hc fd)).filterMap id).take 5 ≠ []
    rw [ne_eq, List.take_eq_nil_iff]
    push_neg
    rw [publicArticles_eq]
    exact ⟨by decide, hsurvne⟩

/-- Witness for C3: article 1 (failing fetch) and article 2 (draft) map to
the absent marker while public article 3 survives, so the batch returns a
success payload. -/
theorem searchArticles_per_item_tolerance_witness :
    enrichOne "acme" none wDetailFetch wArtA = none ∧
    enrichOne "acme" none wDetailFetch wArtB = none ∧
    wArtC ∈ (wHCResp.results.getD []).take 10 ∧
    (enrichOne "acme" none wDetailFetch wArtC).isSome = true ∧
    (searchArticles "acme" none (Except.ok wHCResp) wDetailFetch).error = none ∧
    (searchArticles "acme" none (Except.ok wHCResp) wDetailFetch).message = none ∧
    (searchArticles "acme" none (Except.ok wHCResp) wDetailFetch).results ≠ [] := by
  have h := searchArticles_per_item_tolerance "acme" none wDetailFetch wHCResp
  have hmem : wArtC ∈ (wHCResp.results.getD []).take 10 := by decide
  have hsome : (enrichOne "acme" none wDetailFetch wArtC).isSome = true := rfl
  have h4 := h.2.2.2 wArtC hmem hsome
  exact ⟨h.1 wArtA "down" rfl, h.2.1 wArtB wDetailB rfl rfl, hmem, hsome,
    h4.1, h4.2.1, h4.2.2⟩

/-- C9: an enrichment batch whose final collection is empty returns a
success-shaped empty payload (`results = []`, `count = 0`, no `error`)
whose message distinguishes "the search returned no candidates" from
"candidates existed but all were filtered out or failed". -/
theorem searchArticles_empty_success (sub : String) (hc : Option String)
    (fd : Nat → Except String ArticleDetail) (resp : HCSearchData) :
    ((resp.results.getD []) = [] →
      searchArticles sub hc (Except.ok resp) fd =
        { results := [], count := 0, page := 1, page_count := 0,
          message := some "検索結果が見つかりませんでした", error := none }) ∧
    ((resp.results.getD []) ≠ [] →
      ((resp.results.getD []).take 10).filterMap (enrichOne sub hc fd) = [] →
      searchArticles sub hc (Except.ok resp) fd =
        { results := [], count := 0, page := 1, page_count := 0,
          message := some "公開されている記事が見つかりませんでした", error := none }) ∧
    ("検索結果が見つかりませんでした" : String) ≠ "公開されている記事が見つかりませんでした" := by
  refine ⟨?_, ?_, by decide⟩
  · intro h0
    have h0len : (resp.results.getD []).length = 0 := by
      rw [h0]
      rfl
    rw [searchArticles_ok_def, if_pos h0len]
  · intro h0 hsurv
    have h0len : ¬ (resp.results.getD []).length = 0 := by
      intro hl
      exact h0 (List.length_eq_zero.mp hl)
    have h1 : ((((resp.results.getD []).take 10).map
        (enrichOne sub hc fd)).filterMap id).length = 0 := by
      rw [publicArticles_eq, hsurv]
      rfl
    rw [searchArticles_ok_def, if_neg h0len, if_pos h1]

/-- Witness for C9: an empty search result produces the first message, and
a batch of a failing and a draft candidate produces the second; the two
messages differ and neither payload carries an error. -/
theorem searchArticles_empty_success_witness :
    (wHCRespEmpty.results.getD [] : List ArticleSummary) = [] ∧
    searchArticles "acme" none (Except.ok wHCRespEmpty) wDetailFetch =
      { results := [], count := 0, page := 1, page_count := 0,
        message := some "検索結果が見つかりませんでした", error := none } ∧
    (wHCRespFiltered.results.getD [] : List ArticleSummary) ≠ [] ∧
    ((wHCRespFiltered.results.getD []).take 10).filterMap
      (enrichOne "acme" none wDetailFetch) = [] ∧
    searchArticles "acme" none (Except.ok wHCRespFiltered) wDetailFetch =
      { results := [], count := 0, page := 1, page_count := 0,
        message := some "公開されている記事が見つかりませんでした", error := none } ∧
    ("検索結果が見つかりませんでした" : String) ≠ "公開されている記事が見つかりませんでした" := by
  have h1 := searchArticles_empty_success "acme" none wDetailFetch wHCRespEmpty
  have h2 := searchArticles_empty_success "acme" none wDetailFetch wHCRespFiltered
  have hne : (wHCRespFiltered.results.getD [] : List ArticleSummary) ≠ [] := by decide
  have hsurv : ((wHCRespFiltered.results.getD []).take 10).filterMap
      (enrichOne "acme" none wDetailFetch) = [] := rfl
  exact ⟨rfl, h1.1 rfl, hne, hsurv, h2.2.1 hne hsurv, h2.2.2⟩

theorem string_append_empty (s : String) : s ++ "" = s := by
  cases s
  show String.mk (_ ++ []) = _
  rw [List.append_nil]

/-- C5: the tool dispatchers of both entry points always answer with a
well-formed envelope: an unknown tool name yields an error-flagged envelope
whose message contains the offending name, an absent argument mapping
yields the error-flagged `No arguments provided` envelope, and an error
thrown by a tool call (remote failures included) is caught and wrapped as
an error-flagged envelope carrying the failure's message. -/
theorem dispatcher_error_envelopes
    (call : String → ArgMap → Except String String) (name : String)
    (a : ArgMap) (e : String) :
    (name ∉ TOOL_NAMES →
      handleCallTool true call name (some a) =
        { text := "Unknown tool: " ++ name, isError := true } ∧
      ∃ pre post : String, "Unknown tool: " ++ name = pre ++ name ++ post) ∧
    (handleCallTool true call name none =
      { text := "Error: No arguments provided", isError := true }) ∧
    (name ∈ TOOL_NAMES → call name a = Except.error e →
      handleCallTool true call name (some a) =
        { text := "Error: " ++ e, isError := true }) ∧
    (name ∉ SERVER_TOOL_NAMES →
      serverHandleCallTool true call name (some a) =
        { text := "Error: " ++ ("Unknown tool: " ++ name), isError := true }) ∧
    (serverHandleCallTool true call name none =
      { text := "Error: No arguments provided", isError := true }) ∧
    (name ∈ SERVER_TOOL_NAMES → call name a = Except.error e →
      serverHandleCallTool true call name (some a) =
        { text := "Error: " ++ e, isError := true }) := by
  refine ⟨?_, ?_, ?_, ?_, ?_, ?_⟩
  · intro h
    refine ⟨by simp [handleCallTool, h], "Unknown tool: ", "", ?_⟩
    rw [string_append_empty]
  · simp [handleCallTool]
  · intro hmem hcall
    simp [handleCallTool, hmem, hcall]
  · intro h
    simp [serverHandleCallTool, executeTool, h]
  · simp [serverHandleCallTool]
  · intro hmem hcall
    simp [serverHandleCallTool, executeTool, hmem, hcall]

/-- Witness for C5: an unregistered name produces the unknown-tool
envelope, a missing argument mapping produces the no-arguments envelope,
and a failing call to a registered tool produces the wrapped error
envelope, in both dispatchers. -/
theorem dispatcher_error_envelopes_witness :
    ("bogus_tool" ∉ TOOL_NAMES) ∧
    handleCallTool true wFailCall "bogus_tool" (some []) =
      { text := "Unknown tool: " ++ "bogus_tool", isError := true } ∧
    handleCallTool true wFailCall "search_tickets" none =
      { text := "Error: No arguments provided", isError := true } ∧
    ("search_tickets" ∈ TOOL_NAMES) ∧
    handleCallTool true wFailCall "search_tickets" (some []) =
      { text := "Error: " ++ "boom", isError := true } ∧
    ("bogus_tool" ∉ SERVER_TOOL_NAMES) ∧
    serverHandleCallTool true wFailCall "bogus_tool" (some []) =
      { text := "Error: " ++ ("Unknown tool: " ++ "bogus_tool"), isError := true } ∧
    serverHandleCallTool true wFailCall "search_tickets" (some []) =
      { text := "Error: " ++ "boom", isError := true } := by
  have h1 := dispatcher_error_envelopes wFailCall "bogus_tool" [] "boom"
  have h2 := dispatcher_error_envelopes wFailCall "search_tickets" [] "boom"
  exact ⟨by decide, (h1.1 (by decide)).1, h2.2.1, by decide,
    h2.2.2.1 (by decide) rfl, by decide, h1.2.2.2.1 (by decide),
    h2.2.2.2.2.2 (by decide) rfl⟩

/-- C4: a streaming-transport request whose session-id header does not
identify a live session and which is not a `POST` handshake (initialize)
request is answered with the client-error envelope `{ code := -32000,
id := null }` over HTTP 400, and the session table is left unchanged — in
particular a stale (closed) session identifier never silently creates a
new session. -/
theorem mcp_no_session_rejected (table : List String) (freshId : String)
    (req : McpRequest)
    (hres : resolveSession table req.sessionIdHeader = none)
    (hnot : ¬ (req.method = "POST" ∧ isInitRequest req.body = true)) :
    handleMcp table freshId req = (McpResult.clientError 400 (-32000) true, table) := by
  simp only [handleMcp, hres]
  rw [if_neg hnot]

/-- Witness for C4: with one live session `live-1`, a POST carrying the
stale header `closed-7` and a non-handshake body is rejected with the
-32000 envelope and the table still contains only `live-1`. -/
theorem mcp_no_session_rejected_witness :
    resolveSession wTable wStaleReq.sessionIdHeader = none ∧
    ¬ (wStaleReq.method = "POST" ∧ isInitRequest wStaleReq.body = true) ∧
    handleMcp wTable "fresh-9" wStaleReq =
      (McpResult.clientError 400 (-32000) true, wTable) := by
  refine ⟨by decide, by decide, ?_⟩
  exact mcp_no_session_rejected wTable "fresh-9" wStaleReq (by decide) (by decide)
